import Mathlib

/-!
Verification development for the Breeze command-line assistant
(`src/breeze/{flow,nodes,call_gemini,utils}.py`).

The Python modules are embedded shallowly:
* strings are Lean `String`s, Python `None`-able values are `Option`s,
  Python truthiness of a string/optional is made explicit;
* the two regular expressions used by the intent resolver are modelled by
  executable backtracking matchers with Python `re.search` semantics
  (leftmost starting position, greedy quantifiers, ordered alternation);
* code that raises exceptions returns `Except`;
* side effects (remote-model calls, approval-gate interaction, file writes)
  are recorded as explicit event traces.
-/

set_option maxRecDepth 20000

/-- ASCII whitespace, as recognised by Python's `str.split`, `str.strip`
and the regex class `\s` (for the ASCII inputs modelled here). -/
def isSpaceChar (c : Char) : Bool :=
  c == ' ' || c == '\t' || c == '\n' || c == '\r' || c == '\x0b' || c == '\x0c'

/-- Python `str.lower` (ASCII part, which is all the embedded code compares). -/
def lowerStr (s : String) : String :=
  ⟨s.data.map Char.toLower⟩

/-- Substring occurrence on character lists (Python's `needle in hay`). -/
def listContainsSub (needle : List Char) : List Char → Bool
  | [] => needle.isEmpty
  | c :: rest => needle.isPrefixOf (c :: rest) || listContainsSub needle rest

/-- Python's `needle in hay` for strings. -/
def strContainsSub (hay needle : String) : Bool :=
  listContainsSub needle.data hay.data

/-- Python `str.strip()` (ASCII whitespace). -/
def stripStr (s : String) : String :=
  ⟨((s.data.dropWhile (fun c => isSpaceChar c)).reverse.dropWhile
      (fun c => isSpaceChar c)).reverse⟩

/-- Helper for Python `str.split()` with no separator: accumulate the
current token (reversed in `acc`) and split on whitespace runs. -/
def splitTokensAux : List Char → List Char → List (List Char)
  | [], acc => if acc.isEmpty then [] else [acc.reverse]
  | c :: rest, acc =>
    if isSpaceChar c then
      if acc.isEmpty then splitTokensAux rest []
      else acc.reverse :: splitTokensAux rest []
    else splitTokensAux rest (c :: acc)

/-- Python `s.split()`: whitespace-separated tokens. -/
def tokensOf (s : String) : List String :=
  (splitTokensAux s.data []).map fun l => (⟨l⟩ : String)

/-- `s` ends with `suffix` (Python `str.endswith`). -/
def strEndsWith (s suffix : String) : Bool :=
  suffix.data.reverse.isPrefixOf s.data.reverse

/-- `pathlib.Path(p).name`: the part after the last slash. -/
def path_name (p : String) : String :=
  ⟨(p.data.reverse.takeWhile (fun c => c ≠ '/')).reverse⟩

/-- `pathlib.Path(p).suffix`: the final extension of the last component,
empty when the last dot is leading or absent (pathlib's `rfind` rule). -/
def path_suffix (p : String) : String :=
  let n := (path_name p).data
  let afterDot := n.reverse.takeWhile (fun c => c ≠ '.')
  if afterDot.length + 1 < n.length && afterDot.length ≥ 1 then
    ⟨'.' :: afterDot.reverse⟩
  else ""

/-- `pathlib.Path(p).stem`: last component without `path_suffix`. -/
def path_stem (p : String) : String :=
  let n := (path_name p).data
  ⟨n.take (n.length - (path_suffix p).data.length)⟩

/-- `str(pathlib.Path(p).parent)`: `"."` when there is no slash. -/
def path_parent (p : String) : String :=
  match p.data.reverse.dropWhile (fun c => c ≠ '/') with
  | [] => "."
  | _ :: rest => if rest.isEmpty then "/" else ⟨rest.reverse⟩

/-- `str(parent / name)` for the results of `path_parent`. -/
def path_join (parent nm : String) : String :=
  if parent == "." then nm
  else if parent == "/" then "/" ++ nm
  else parent ++ "/" ++ nm

/-- Python truthiness of an optional string (`if path:`, `if content:`):
present and non-empty. -/
def optStrTruthy : Option String → Bool
  | none => false
  | some s => !(s == "")

/-- Python `str.title()` on ASCII text: an alphabetic character is
uppercased when the previous character is not alphabetic, lowercased
otherwise. -/
def titleAux : List Char → Bool → List Char
  | [], _ => []
  | c :: rest, prevAlpha =>
    (if c.isAlpha then (if prevAlpha then c.toLower else c.toUpper) else c)
      :: titleAux rest c.isAlpha

/-- Python `str.title()`. -/
def titleStr (s : String) : String :=
  ⟨titleAux s.data false⟩

/-! ## The intent resolver's path regex (`nodes.py`, `parse_intent`)

`re.search(r'(\S+\.(py|js|...|ps1))', user_input, re.IGNORECASE)`.
Modelled with Python's semantics: leftmost starting position wins, `\S+`
is greedy with backtracking, and the extension alternation is tried in
the order written, so it can accept a proper prefix of the text after
the dot (e.g. `js` inside `json`). -/

/-- The extension alternation of the path regex, in source order. -/
def known_extensions : List String :=
  ["py", "js", "ts", "java", "cpp", "c", "cs", "php", "rb", "go", "rs",
   "swift", "kt", "scala", "html", "css", "sql", "json", "xml", "yaml",
   "yml", "md", "txt", "sh", "bat", "ps1"]

/-- The alternation as character lists. -/
def ext_alts : List (List Char) :=
  known_extensions.map String.data

/-- Does alternative `alt` (lowercase) match a prefix of `text`
case-insensitively? -/
def alt_matches : List Char → List Char → Bool
  | [], _ => true
  | _ :: _, [] => false
  | e :: es, t :: ts => (t.toLower == e) && alt_matches es ts

/-- Ordered alternation: length of the first matching alternative. -/
def try_alts : List (List Char) → List Char → Option Nat
  | [], _ => none
  | a :: rest, text =>
    if alt_matches a text then some a.length else try_alts rest text

/-- Try to match `\S+\.(alt)` starting exactly here; `acc` holds the
(reversed) characters already consumed by `\S+`.  Greedy: extending
`\S+` is preferred over closing it at a dot. -/
def greedy_match (acc : List Char) : List Char → Option (List Char)
  | [] => none
  | c :: rest =>
    if isSpaceChar c then none
    else
      match greedy_match (c :: acc) rest with
      | some m => some m
      | none =>
        if c == '.' && !acc.isEmpty then
          match try_alts ext_alts rest with
          | some n => some (acc.reverse ++ '.' :: rest.take n)
          | none => none
        else none

/-- `re.search` for the path regex: try each starting position from the
left, returning the first (leftmost) match. -/
def regex_search_path : List Char → Option (List Char)
  | [] => none
  | c :: rest =>
    match greedy_match [] (c :: rest) with
    | some m => some m
    | none => regex_search_path rest

/-! ## The `--target` regex (`nodes.py`, `parse_intent`)

`re.search(r'--target\s+["\x27]?([^"\x27]+)["\x27]?', user_input)`. -/

/-- A quote character of the target regex's character classes. -/
def is_quote (c : Char) : Bool :=
  c == '"' || c == Char.ofNat 39

/-- After the whitespace of `\s+`: optional opening quote, then the
captured group `[^"\x27]+` (greedy, must be non-empty); the trailing
optional quote never forces backtracking. -/
def target_after_ws : List Char → Option (List Char)
  | [] => none
  | c :: r =>
    if is_quote c then
      let body := r.takeWhile (fun x => !is_quote x)
      if body.isEmpty then none else some body
    else
      let body := (c :: r).takeWhile (fun x => !is_quote x)
      if body.isEmpty then none else some body

/-- Greedy `\s+`: try the longest whitespace prefix first, backtracking
one character at a time (at least one whitespace character). -/
def target_ws_desc : Nat → List Char → Option (List Char)
  | 0, _ => none
  | n + 1, rest =>
    match target_after_ws (rest.drop (n + 1)) with
    | some b => some b
    | none => target_ws_desc n rest

/-- Match `\s+["\x27]?([^"\x27]+)["\x27]?` against `rest`. -/
def target_tail (rest : List Char) : Option (List Char) :=
  target_ws_desc (rest.takeWhile isSpaceChar).length rest

/-- `re.search` for the target regex: leftmost occurrence of the literal
`--target` whose tail matches. -/
def regex_search_target : List Char → Option (List Char)
  | [] => none
  | c :: rest =>
    if ("--target".data).isPrefixOf (c :: rest) then
      match target_tail ((c :: rest).drop 8) with
      | some b => some b
      | none => regex_search_target rest
    else regex_search_target rest

/-! ## Intent resolver (`OrchestratorNode.parse_intent`) -/

/-- The partial task request built by `parse_intent`; absent dictionary
keys are `none`. -/
structure Intent where
  command : Option String
  path : Option String
  output_mode : Option String
  secure : Option Bool
  target : Option String
deriving DecidableEq

/-- The command keyword list scanned by `parse_intent`, in source order. -/
def command_keywords : List String :=
  ["doc", "summarize", "test", "inspect", "refactor", "annotate", "migrate"]

/-- The prompt `parse_intent` sends to the remote model. -/
def parse_intent_prompt (user_input : String) : String :=
  "\nAnalyze the following user input and extract the intent for a multi-language code analysis tool.\nRespond with a JSON object containing:\n- command: one of [doc, summarize, test, inspect, refactor, annotate, migrate] or null\n- path: file path if mentioned or null\n- output_mode: console, in-place, or new-file (default: console)\n- secure: true if user wants confirmation (default: false)\n- target: migration target if command is migrate\n\nThe tool supports: Python, JavaScript, TypeScript, Java, C++, C#, PHP, Ruby, Go, Rust, HTML, CSS, SQL, JSON, YAML, and more.\n\nUser input: \"" ++ user_input ++ "\"\n"

/-- The pattern-matching body of `parse_intent`.  The remote response is
bound (mirroring the Python local `response`) but, exactly as in the
source, never read when the intent dictionary is built. -/
def parse_intent_body (user_input : String) (response : String) : Intent :=
  let lower := lowerStr user_input
  let cmd := command_keywords.find? fun c => strContainsSub lower c
  let pth := (regex_search_path user_input.data).map fun l => (⟨l⟩ : String)
  let omode :=
    if strContainsSub lower "in-place" then some "in-place"
    else if strContainsSub lower "new-file" then some "new-file"
    else none
  let sec :=
    if strContainsSub lower "secure" || strContainsSub lower "confirm" then
      some true
    else none
  let tgt :=
    if cmd == some "migrate" then
      (regex_search_target user_input.data).map fun l => (⟨l⟩ : String)
    else none
  { command := cmd, path := pth, output_mode := omode, secure := sec,
    target := tgt }

/-- `OrchestratorNode.parse_intent`: fetch a remote response for the
intent prompt (a raised remote error propagates), then build the intent
from the input text alone. -/
def parse_intent (gemini : String → Except String String)
    (user_input : String) : Except String Intent :=
  (gemini (parse_intent_prompt user_input)).map fun response =>
    parse_intent_body user_input response

/-! ### Claim-side vocabulary for C2 and C8 (hypotheses of the claims,
not part of the program embedding) -/

/-- The recognized command keywords occurring (as substrings of the
lowercased input, the source's own criterion) in a free-text input. -/
def recognized_keywords_in (s : String) : List String :=
  command_keywords.filter fun c => strContainsSub (lowerStr s) c

/-- A token ends in a known file extension. -/
def token_ends_in_known_extension (tok : String) : Bool :=
  known_extensions.any fun e => strEndsWith (lowerStr tok) ("." ++ e)

/-- The whitespace-separated tokens of the input that end in a known
file extension. -/
def ext_tokens_of (s : String) : List String :=
  (tokensOf s).filter token_ends_in_known_extension

/-! ## File-type detection

`nodes.py` defines its own `get_file_type` (shadowing the one imported
from `utils.py`); `utils.py` has a smaller table used by
`get_output_filename`.  Both are embedded. -/

/-- `get_file_extension` (both modules): `Path(file_path).suffix.lower()`. -/
def get_file_extension (file_path : String) : String :=
  lowerStr (path_suffix file_path)

/-- The extension table of `nodes.get_file_type`. -/
def nodes_type_mapping : List (String × String) :=
  [(".py", "python"), (".js", "javascript"), (".ts", "typescript"),
   (".jsx", "javascript"), (".tsx", "typescript"), (".java", "java"),
   (".cpp", "cpp"), (".cc", "cpp"), (".cxx", "cpp"), (".c", "c"),
   (".cs", "csharp"), (".php", "php"), (".rb", "ruby"), (".go", "go"),
   (".rs", "rust"), (".swift", "swift"), (".kt", "kotlin"),
   (".scala", "scala"), (".html", "html"), (".htm", "html"),
   (".css", "css"), (".scss", "css"), (".sass", "css"), (".sql", "sql"),
   (".json", "json"), (".xml", "xml"), (".yaml", "yaml"), (".yml", "yaml"),
   (".md", "markdown"), (".txt", "text"), (".sh", "shell"),
   (".bash", "shell"), (".zsh", "shell"), (".bat", "batch"),
   (".cmd", "batch"), (".ps1", "powershell")]

/-- `nodes.get_file_type`: extension lookup with default `"text"`. -/
def nodes_get_file_type (file_path : String) : String :=
  (nodes_type_mapping.lookup (get_file_extension file_path)).getD "text"

/-- The extension table of `utils.get_file_type`. -/
def utils_type_mapping : List (String × String) :=
  [(".py", "python"), (".js", "javascript"), (".ts", "typescript"),
   (".java", "java"), (".cpp", "cpp"), (".c", "c"), (".cs", "csharp"),
   (".php", "php"), (".rb", "ruby"), (".go", "go"), (".rs", "rust"),
   (".swift", "swift"), (".kt", "kotlin"), (".scala", "scala"),
   (".html", "html"), (".css", "css"), (".sql", "sql"), (".json", "json"),
   (".xml", "xml"), (".yaml", "yaml"), (".yml", "yaml"), (".md", "markdown"),
   (".txt", "text"), (".sh", "shell"), (".bat", "batch"),
   (".ps1", "powershell")]

/-- `utils.get_file_type`: extension lookup with default `"text"`. -/
def utils_get_file_type (file_path : String) : String :=
  (utils_type_mapping.lookup (get_file_extension file_path)).getD "text"

/-- `get_file_type(path) if path else "text"`, the pattern shared by
every agent node. -/
def agent_file_type (path : Option String) : String :=
  if optStrTruthy path then nodes_get_file_type (path.getD "") else "text"

/-- `BaseAgentNode._get_file_context`. -/
def get_file_context (path : Option String) : String :=
  if !optStrTruthy path then ""
  else "File: " ++ path_name (path.getD "") ++ "\nPath: " ++ path.getD "" ++ "\n"

/-! ## Agent nodes (`nodes.py`)

Each `process` method is embedded as a function of the remote client
(`gemini : String → Except String String`, the behaviour of
`GeminiAPIProxy.call_gemini` per prompt: `.error` models a raised
`RuntimeError`), returning the result-or-raised outcome together with
the list of prompts actually sent to the remote client.  `verbose`
parameters only control progress printing in the source and are omitted
throughout. -/

/-- Documentation styles of `DocAgentNode.process`. -/
def doc_styles : List (String × String) :=
  [("python", "Google-style docstrings"), ("javascript", "JSDoc comments"),
   ("typescript", "TSDoc comments"), ("java", "Javadoc comments"),
   ("cpp", "Doxygen comments"), ("c", "Doxygen comments"),
   ("csharp", "XML documentation comments"), ("php", "PHPDoc comments"),
   ("ruby", "YARD documentation"), ("go", "Go doc comments"),
   ("rust", "Rust doc comments")]

/-- `DocAgentNode.process`. -/
def doc_agent_process (gemini : String → Except String String)
    (content path : Option String) : Except String String × List String :=
  if !optStrTruthy content then
    (Except.ok "No content provided for documentation generation.", [])
  else
    let file_type := agent_file_type path
    let context := get_file_context path
    let doc_style := (doc_styles.lookup file_type).getD "appropriate inline comments"
    let prompt := "\n" ++ context ++ "\nFile type: " ++ titleStr file_type ++
      "\n\nPlease generate " ++ doc_style ++
      " for all functions, classes, and modules in the following " ++ file_type ++
      " code.\nOnly return the complete code with documentation added, no explanations.\n\nCode:\n"
      ++ content.getD "" ++ "\n"
    (gemini prompt, [prompt])

/-- Language terminology of `SummaryAgentNode.process`. -/
def language_terms : List (String × String) :=
  [("python", "modules, classes, functions, and methods"),
   ("javascript", "modules, classes, functions, and objects"),
   ("typescript", "modules, interfaces, classes, functions, and types"),
   ("java", "packages, classes, methods, and interfaces"),
   ("cpp", "namespaces, classes, functions, and templates"),
   ("c", "functions, structures, and header dependencies"),
   ("csharp", "namespaces, classes, methods, and properties"),
   ("php", "classes, functions, methods, and traits"),
   ("ruby", "modules, classes, methods, and mixins"),
   ("go", "packages, functions, structs, and interfaces"),
   ("rust", "modules, structs, functions, traits, and enums"),
   ("html", "elements, structure, and semantic content"),
   ("css", "selectors, properties, and styling rules"),
   ("sql", "tables, queries, procedures, and schema"),
   ("json", "structure, data fields, and nested objects"),
   ("yaml", "configuration structure and key-value pairs")]

/-- `SummaryAgentNode.process`. -/
def summary_agent_process (gemini : String → Except String String)
    (content path : Option String) : Except String String × List String :=
  if !optStrTruthy content then
    (Except.ok "No content provided for summarization.", [])
  else
    let file_type := agent_file_type path
    let context := get_file_context path
    let terms := (language_terms.lookup file_type).getD "main components and structure"
    let prompt := "\n" ++ context ++ "\nFile type: " ++ titleStr file_type ++
      "\n\nPlease provide a concise summary of the following " ++ file_type ++
      " code/content, including:\n- Main purpose and functionality\n- Key " ++ terms ++
      "\n- Dependencies and imports/includes\n- Notable patterns, design decisions, or architectural choices\n- Any configuration or setup requirements\n\nContent:\n"
      ++ content.getD "" ++ "\n"
    (gemini prompt, [prompt])

/-- Test frameworks of `TestGenerationAgentNode.process`. -/
def test_frameworks : List (String × String) :=
  [("python", "pytest"), ("javascript", "Jest"),
   ("typescript", "Jest with TypeScript"), ("java", "JUnit"),
   ("cpp", "Google Test"), ("c", "Unity Test Framework"),
   ("csharp", "NUnit or MSTest"), ("php", "PHPUnit"), ("ruby", "RSpec"),
   ("go", "Go testing package"), ("rust", "Rust built-in test framework")]

/-- `TestGenerationAgentNode.process`. -/
def test_agent_process (gemini : String → Except String String)
    (content path : Option String) : Except String String × List String :=
  if !optStrTruthy content then
    (Except.ok "No content provided for test generation.", [])
  else
    let file_type := agent_file_type path
    let context := get_file_context path
    let framework := (test_frameworks.lookup file_type).getD "appropriate testing framework"
    let prompt := "\n" ++ context ++ "\nFile type: " ++ titleStr file_type ++
      "\n\nPlease generate comprehensive unit tests for the following " ++ file_type ++
      " code using " ++ framework ++
      ".\nInclude tests for edge cases, error conditions, and main functionality.\nOnly return the test code, no explanations.\n\nCode:\n"
      ++ content.getD "" ++ "\n"
    (gemini prompt, [prompt])

/-- Analysis focus areas of `BugDetectionAgentNode.process`. -/
def analysis_focuses : List (String × String) :=
  [("python", "indentation errors, variable scope, exception handling, type mismatches, import issues"),
   ("javascript", "variable hoisting, async/await issues, callback hell, type coercion, DOM manipulation errors"),
   ("typescript", "type annotations, interface compliance, generic constraints, module imports"),
   ("java", "null pointer exceptions, memory leaks, concurrency issues, exception handling, type safety"),
   ("cpp", "memory management, pointer arithmetic, buffer overflows, resource leaks, undefined behavior"),
   ("c", "memory leaks, buffer overflows, pointer errors, uninitialized variables, compilation warnings"),
   ("csharp", "null reference exceptions, resource disposal, async/await patterns, LINQ usage"),
   ("php", "variable scope, SQL injection, XSS vulnerabilities, type juggling, error handling"),
   ("ruby", "method visibility, block usage, exception handling, performance bottlenecks"),
   ("go", "goroutine leaks, channel deadlocks, error handling patterns, memory usage"),
   ("rust", "ownership violations, borrowing errors, lifetime issues, unsafe code blocks"),
   ("html", "semantic markup, accessibility issues, missing attributes, nesting violations"),
   ("css", "specificity conflicts, responsive design issues, performance problems"),
   ("sql", "injection vulnerabilities, index usage, query performance, data integrity"),
   ("json", "syntax errors, schema validation, data type inconsistencies"),
   ("yaml", "indentation errors, data type issues, reference problems")]

/-- `BugDetectionAgentNode.process`. -/
def bug_agent_process (gemini : String → Except String String)
    (content path : Option String) : Except String String × List String :=
  if !optStrTruthy content then
    (Except.ok "No content provided for bug detection.", [])
  else
    let file_type := agent_file_type path
    let context := get_file_context path
    let focus_areas := (analysis_focuses.lookup file_type).getD
      "syntax errors, logic issues, and best practice violations"
    let prompt := "\n" ++ context ++ "\nFile type: " ++ titleStr file_type ++
      "\n\nPlease analyze the following " ++ file_type ++
      " code/content for potential bugs, issues, and improvements, focusing on:\n- "
      ++ focus_areas ++
      "\n- Security vulnerabilities\n- Performance issues\n- Code smells and maintainability concerns\n- Best practice violations for "
      ++ file_type ++
      "\n\nProvide specific recommendations for each issue found, including line numbers when possible.\n\nContent:\n"
      ++ content.getD "" ++ "\n"
    (gemini prompt, [prompt])

/-- Refactoring focus areas of `RefactorCodeAgentNode.process`. -/
def refactoring_focuses : List (String × String) :=
  [("python", "PEP 8 compliance, function decomposition, list comprehensions, context managers, type hints"),
   ("javascript", "ES6+ features, async/await, arrow functions, destructuring, modules"),
   ("typescript", "type safety, interface usage, generic types, strict mode compliance"),
   ("java", "OOP principles, design patterns, lambda expressions, stream API, exception handling"),
   ("cpp", "modern C++ features, RAII, smart pointers, const correctness, template usage"),
   ("c", "function modularity, memory management, error handling, header organization"),
   ("csharp", "LINQ usage, async patterns, nullable reference types, property usage, dependency injection"),
   ("php", "PSR standards, namespace usage, type declarations, error handling, security practices"),
   ("ruby", "idiomatic Ruby patterns, block usage, metaprogramming, gem conventions"),
   ("go", "idiomatic Go patterns, error handling, interface usage, goroutine patterns"),
   ("rust", "ownership patterns, error handling with Result, trait usage, lifetime optimization"),
   ("html", "semantic markup, accessibility improvements, performance optimization"),
   ("css", "organization, specificity reduction, responsive design, performance optimization"),
   ("sql", "query optimization, index usage, normalization, stored procedure organization")]

/-- `RefactorCodeAgentNode.process`. -/
def refactor_agent_process (gemini : String → Except String String)
    (content path : Option String) : Except String String × List String :=
  if !optStrTruthy content then
    (Except.ok "No content provided for refactoring.", [])
  else
    let file_type := agent_file_type path
    let context := get_file_context path
    let focus_areas := (refactoring_focuses.lookup file_type).getD
      "code organization, readability, and best practices"
    let prompt := "\n" ++ context ++ "\nFile type: " ++ titleStr file_type ++
      "\n\nPlease refactor the following " ++ file_type ++
      " code to improve:\n- Code readability and maintainability\n- Performance where applicable\n- "
      ++ focus_areas ++ "\n- Following " ++ file_type ++
      " best practices and conventions\n- Reducing complexity and improving structure\n\nReturn the refactored code with improvements applied. Explain major changes made.\n\nContent:\n"
      ++ content.getD "" ++ "\n"
    (gemini prompt, [prompt])

/-- Type systems of `TypeAnnotationAgentNode.process`; a detected type
outside this table has no associated static type system. -/
def type_systems : List (String × String) :=
  [("python", "Python type hints (typing module, generics, unions, optional)"),
   ("typescript", "TypeScript type annotations (interfaces, unions, generics, utility types)"),
   ("java", "Java type declarations (generics, wildcards, bounded types)"),
   ("cpp", "C++ type specifications (templates, auto keyword, const correctness)"),
   ("c", "C type declarations (const qualifiers, function pointers, struct definitions)"),
   ("csharp", "C# type annotations (nullable reference types, generics, var inference)"),
   ("go", "Go type declarations (interfaces, struct types, type assertions)"),
   ("rust", "Rust type annotations (ownership types, lifetimes, trait bounds)"),
   ("php", "PHP type declarations (scalar types, return types, property types)"),
   ("javascript", "JSDoc type annotations (@param, @returns, @type)")]

/-- `TypeAnnotationAgentNode.process`. -/
def type_annotation_agent_process (gemini : String → Except String String)
    (content path : Option String) : Except String String × List String :=
  if !optStrTruthy content then
    (Except.ok "No content provided for type annotation.", [])
  else
    let file_type := agent_file_type path
    let context := get_file_context path
    match type_systems.lookup file_type with
    | none =>
      (Except.ok ("Type annotations are not typically applicable to " ++ file_type ++
        " files. This command works best with programming languages that support static typing."),
       [])
    | some type_system =>
      let prompt := "\n" ++ context ++ "\nFile type: " ++ titleStr file_type ++
        "\n\nPlease add comprehensive type annotations to the following " ++ file_type ++
        " code using " ++ type_system ++
        ":\n- Function parameters and return types\n- Variable types where helpful for clarity\n- Generic/template types where applicable\n- Import/include necessary type modules or headers\n- Follow "
        ++ file_type ++
        " typing best practices\n\nReturn the complete code with type annotations added.\n\nContent:\n"
        ++ content.getD "" ++ "\n"
      (gemini prompt, [prompt])

/-- `MigrationAgentNode._determine_migration_type`. -/
def determine_migration_type (target file_type : String) : String :=
  let target_lower := lowerStr target
  if ["python", "javascript", "java", "cpp", "rust", "go"].any
      (fun lang => strContainsSub target_lower lang) then "language_conversion"
  else if ["3.", "2.", "es6", "es2020", "c++17", "c++20"].any
      (fun version => strContainsSub target_lower version) then "version_upgrade"
  else if ["react", "vue", "angular", "django", "flask", "spring"].any
      (fun framework => strContainsSub target_lower framework) then "framework_migration"
  else "general_migration"

/-- `MigrationAgentNode._get_migration_considerations`. -/
def get_migration_considerations (migration_type file_type target : String) : String :=
  if migration_type == "language_conversion" then
    "\n- Convert " ++ file_type ++
    " syntax to target language syntax\n- Adapt data types and type systems\n- Replace language-specific libraries with equivalents\n- Adjust naming conventions and code style\n- Handle language-specific features and paradigms"
  else if migration_type == "version_upgrade" then
    "\n- Deprecated features that need updating\n- New syntax and language features to adopt\n- Library/API changes and replacements\n- Performance improvements available in newer versions\n- Breaking changes that need attention"
  else if migration_type == "framework_migration" then
    "\n- Framework-specific patterns and conventions\n- Component/module structure changes\n- API and method name changes\n- Configuration and setup differences\n- Best practices for the target framework"
  else
    "\n- Compatibility requirements for " ++ target ++
    "\n- Syntax and API changes needed\n- Library and dependency updates\n- Performance and security improvements\n- Modern best practices adoption"

/-- `MigrationAgentNode.process`; `target` is the `kwargs.get("target", "")`
string, empty when the router did not pass one. -/
def migration_agent_process (gemini : String → Except String String)
    (content path : Option String) (target : String) :
    Except String String × List String :=
  if !optStrTruthy content then
    (Except.ok "No content provided for migration.", [])
  else if target == "" then
    (Except.ok "No migration target specified.", [])
  else
    let file_type := agent_file_type path
    let context := get_file_context path
    let migration_type := determine_migration_type target file_type
    let prompt := "\n" ++ context ++ "\nFile type: " ++ titleStr file_type ++
      "\nMigration target: " ++ target ++ "\nMigration type: " ++ migration_type ++
      "\n\nPlease migrate the following " ++ file_type ++
      " code to be compatible with: " ++ target ++ "\n\nConsider:\n" ++
      get_migration_considerations migration_type file_type target ++
      "\n\nReturn the migrated code that works with " ++ target ++ ".\n\nContent:\n"
      ++ content.getD "" ++ "\n"
    (gemini prompt, [prompt])

/-- The prompt of `OrchestratorNode.handle_general_query`. -/
def handle_general_query_prompt (query : String) : String :=
  "\nYou are Breeze, an AI-powered multi-language code assistant. You can analyze and transform code in:\n- Python, JavaScript, TypeScript, Java, C++, C#, PHP, Ruby, Go, Rust\n- Web technologies: HTML, CSS, SQL\n- Data formats: JSON, XML, YAML\n- Scripts: Shell, Batch, PowerShell\n- Documentation: Markdown\n\nAnswer the following query about code analysis, programming best practices, or tool usage:\n\nQuery: "
  ++ query ++ "\n"

/-- `OrchestratorNode.handle_general_query`. -/
def handle_general_query (gemini : String → Except String String)
    (query : String) : Except String String × List String :=
  (gemini (handle_general_query_prompt query), [handle_general_query_prompt query])

/-! ## Approval gate (`SafetyCheckNode.approve_changes`)

The blocking read-eval loop is embedded as a function of the successive
stdin responses.  `none` means the response list was exhausted with no
terminal state reached (the real loop would still be blocking).  Console
printing (the verbose preview, the safety warnings, the prompts and the
diff display) does not influence the transitions and is recorded only
through the returned events. -/

/-- Observable actions of one approval-gate session. -/
inductive GateEvent where
  | showFull
  | showDiff
  | previewSaved (path : String)
  | invalidReprompt
deriving DecidableEq

/-- `SafetyCheckNode.approve_changes`: each response is lowercased and
stripped; `y`/`yes` approves, `n`/`no` rejects, `v`/`view` prints the
full pending content, `d`/`diff` and `s`/`save` are honoured only when a
file path was supplied, anything else re-prompts with a usage hint. -/
def approve_changes (changes : String) (file_path : Option String) :
    List String → Option Bool × List GateEvent
  | [] => (none, [])
  | resp :: rest =>
    let r := stripStr (lowerStr resp)
    if r == "y" || r == "yes" then (some true, [])
    else if r == "n" || r == "no" then (some false, [])
    else if r == "v" || r == "view" then
      ((approve_changes changes file_path rest).1,
       GateEvent.showFull :: (approve_changes changes file_path rest).2)
    else if (r == "d" || r == "diff") && optStrTruthy file_path then
      ((approve_changes changes file_path rest).1,
       GateEvent.showDiff :: (approve_changes changes file_path rest).2)
    else if (r == "s" || r == "save") && optStrTruthy file_path then
      ((approve_changes changes file_path rest).1,
       GateEvent.previewSaved (file_path.getD "" ++ ".preview")
         :: (approve_changes changes file_path rest).2)
    else
      ((approve_changes changes file_path rest).1,
       GateEvent.invalidReprompt :: (approve_changes changes file_path rest).2)

/-! ## Remote completion client (`call_gemini.py`)

The remote service response structure is embedded as data: a response
carries candidates, a candidate optionally carries content, content
carries parts.  `GeminiAPIProxy.call_gemini` is a function of the
outcome of `model.generate_content` (`.error` models a raised service
exception, whose message is interpolated into the re-raised
`RuntimeError`).  The Python truthiness test
`response.candidates and response.candidates[0].content` is modelled as
non-emptiness of the candidate list and presence of the optional
content. -/

/-- One part of a candidate's content. -/
structure GenPart where
  text : String
deriving DecidableEq

/-- Candidate content: a list of parts. -/
structure GenContent where
  parts : List GenPart
deriving DecidableEq

/-- One response candidate. -/
structure GenCandidate where
  content : Option GenContent
deriving DecidableEq

/-- A remote service response. -/
structure GenResponse where
  candidates : List GenCandidate
deriving DecidableEq

/-- `GeminiAPIProxy.call_gemini` (initialized model): a raised service
error is re-raised as `RuntimeError("Gemini API call failed: ...")`; a
successful response with candidates and content yields
`parts[0].text` — but an empty `parts` list makes that subscript raise
`IndexError("list index out of range")`, which the same `except` clause
re-raises as a `RuntimeError`; a response without candidates or without
content yields the sentinel string. -/
def call_gemini (call : Except String GenResponse) : Except String String :=
  match call with
  | Except.error e => Except.error ("Gemini API call failed: " ++ e)
  | Except.ok response =>
    match response.candidates with
    | [] => Except.ok "No response generated from Gemini API"
    | cand :: _ =>
      match cand.content with
      | none => Except.ok "No response generated from Gemini API"
      | some content =>
        match content.parts with
        | [] => Except.error "Gemini API call failed: list index out of range"
        | part :: _ => Except.ok part.text

/-- Is an `Except` outcome an error (a raised exception)? -/
def except_is_error {ε α : Type} : Except ε α → Bool
  | Except.error _ => true
  | Except.ok _ => false

/-! ## Output filenames (`utils.py`) -/

/-- `utils._get_test_extension`. -/
def test_extensions : List (String × String) :=
  [("python", ".py"), ("javascript", ".test.js"), ("typescript", ".test.ts"),
   ("java", ".java"), ("cpp", ".cpp"), ("c", ".c"), ("csharp", ".cs"),
   ("php", ".php"), ("ruby", ".rb"), ("go", "_test.go"), ("rust", ".rs")]

/-- `utils._get_test_extension`: lookup with default `".txt"`. -/
def get_test_extension (file_type : String) : String :=
  (test_extensions.lookup file_type).getD ".txt"

/-- `utils.get_output_filename`: derived output path per command (tests
land in a sibling `tests` directory). -/
def get_output_filename (original_path command : String) : String :=
  let file_type := utils_get_file_type original_path
  let sfx := path_suffix original_path
  let stem := path_stem original_path
  let parent := path_parent original_path
  if command == "test" then
    path_join (path_join parent "tests")
      ("test_" ++ stem ++ get_test_extension file_type)
  else
    let extension :=
      if command == "doc" then ".documented" ++ sfx
      else if command == "summarize" then ".summary.md"
      else if command == "inspect" then ".inspection.md"
      else if command == "refactor" then ".refactored" ++ sfx
      else if command == "annotate" then ".annotated" ++ sfx
      else if command == "migrate" then ".migrated" ++ sfx
      else ".output.txt"
    path_join parent (stem ++ extension)

/-! ## Error handling (`ErrorHandlingNode.handle_error`)

Embedded as a pure function of the error type name, the error message,
the command and the path.  The stat-derived context lines (file size,
readability) depend on the live filesystem and only add informational
text when the file exists; they are the one part of the formatter not
reproduced here.  No claim inspects the report text. -/

/-- A single-quote character as a string (for message texts). -/
def apos : String := ⟨[Char.ofNat 39]⟩

/-- `ErrorHandlingNode._get_error_explanation`. -/
def get_error_explanation (error_type file_type : String) : Option String :=
  if error_type == "FileNotFoundError" then
    some ("The " ++ file_type ++ " file could not be found at the specified location.")
  else if error_type == "PermissionError" then
    some ("Insufficient permissions to access the " ++ file_type ++ " file.")
  else if error_type == "UnicodeDecodeError" then
    some ("The " ++ file_type ++ " file contains characters that cannot be decoded with the current encoding.")
  else if error_type == "JSONDecodeError" then
    some "The JSON file contains invalid syntax and cannot be parsed."
  else if error_type == "SyntaxError" then
    some ("The " ++ file_type ++ " code contains syntax errors that prevent processing.")
  else if error_type == "ImportError" then
    some "Required Python packages are not installed or cannot be imported."
  else if error_type == "ConnectionError" then
    some "Cannot connect to the Gemini API - check your internet connection."
  else if error_type == "KeyError" then
    some "Missing required configuration or API key."
  else if error_type == "ValueError" then
    some ("Invalid value or parameter provided for " ++ file_type ++ " processing.")
  else if error_type == "TimeoutError" then
    some "The operation timed out - the file might be too large or complex."
  else if error_type == "MemoryError" then
    some "Not enough memory to process the file - try with a smaller file."
  else none

/-- `ErrorHandlingNode._get_file_type_suggestions`. -/
def get_file_type_suggestions (error_type error_message file_type : String)
    (command : Option String) : List String :=
  (if file_type == "python" && (error_type == "SyntaxError") then
    ["Check for proper indentation",
     "Verify parentheses and brackets are balanced",
     "Ensure proper Python syntax"]
  else if file_type == "javascript" && (error_type == "SyntaxError") then
    ["Check for missing semicolons",
     "Verify curly braces are balanced",
     "Ensure proper JavaScript syntax"]
  else if file_type == "json" && strContainsSub error_type "JSON" then
    ["Validate JSON syntax online",
     "Check for trailing commas",
     "Ensure strings are properly quoted"]
  else if file_type == "yaml" && (error_type == "ScannerError") then
    ["Check YAML indentation (use spaces, not tabs)",
     "Verify proper YAML syntax",
     "Ensure colons have spaces after them"]
  else if file_type == "xml" && strContainsSub error_message "XML" then
    ["Check for unclosed tags",
     "Verify proper XML structure",
     "Ensure special characters are properly escaped"]
  else []) ++
  (if command == some "test" && ["python", "javascript", "java"].contains file_type then
    ["Ensure your " ++ file_type ++ " code has testable functions/methods"]
  else if command == some "doc" && (file_type == "python") then
    ["Ensure functions and classes are properly defined"]
  else [])

/-- `ErrorHandlingNode._get_error_suggestions`. -/
def get_error_suggestions (error_type error_message file_type : String)
    (command : Option String) : List String :=
  (if error_type == "FileNotFoundError" then
    ["Check if the file path is correct",
     "Ensure the file exists in the specified location",
     "Verify the file has a ." ++ file_type ++ " extension if expected"]
  else if error_type == "PermissionError" then
    ["Run the command as administrator/sudo",
     "Check file permissions and ownership",
     "Ensure the file is not open in another program"]
  else if error_type == "UnicodeDecodeError" then
    ["The " ++ file_type ++ " file might use a different encoding",
     "Try opening the file in a text editor to check encoding",
     "Consider converting the file to UTF-8 encoding"]
  else if strContainsSub error_message "API" ||
          strContainsSub (lowerStr error_message) "gemini" then
    ["Check your GEMINI_API_KEY environment variable",
     "Verify your internet connection",
     "Ensure your API key is valid and active",
     "Check if you" ++ apos ++ "ve exceeded API rate limits"]
  else if error_type == "ImportError" then
    ["Install required packages: pip install google-generativeai",
     "Check your Python environment and virtual environment",
     "Ensure all dependencies are properly installed"]
  else []) ++
  get_file_type_suggestions error_type error_message file_type command

/-- `ErrorHandlingNode._format_error_message` (without the stat-derived
file-size line, see the section comment). -/
def format_error_message (error_type error_message : String)
    (command path : Option String) (file_type : String) : String :=
  let message := "❌ Error in " ++
    (if optStrTruthy command then command.getD "" else "operation") ++
    (if optStrTruthy path then
      " for " ++ file_type ++ " file: " ++ path_name (path.getD "")
     else "") ++
    "\n\n🔍 Error Details:" ++
    "\n  Type: " ++ error_type ++
    "\n  Message: " ++ error_message ++
    (if path.isSome && optStrTruthy path then "\n  File: " ++ path.getD ""
     else "")
  match get_error_explanation error_type file_type with
  | some explanation => message ++ "\n\n📝 What this means:\n  " ++ explanation
  | none => message

/-- `ErrorHandlingNode.handle_error`: format the report and append the
suggestions. -/
def handle_error (error_type error_message : String)
    (command path : Option String) : String :=
  let file_type :=
    if optStrTruthy path then nodes_get_file_type (path.getD "") else "unknown"
  let error_report := format_error_message error_type error_message command path file_type
  let suggestions := get_error_suggestions error_type error_message file_type command
  if suggestions.isEmpty then error_report
  else
    error_report ++ "\n\n💡 Suggestions:" ++
      suggestions.foldl (fun acc s => acc ++ "\n  • " ++ s) ""

/-! ## Flow orchestration (`flow.py`) -/

/-- Observable effects of one request through the flow orchestrator. -/
inductive TraceEvent where
  | remoteCall (prompt : String)
  | gateEntered
  | gateOutcome (approved : Bool)
  | fileWrite (path content : String)
deriving DecidableEq

/-- The command kinds `_handle_output` writes in-place (its own list). -/
def mutating_commands : List String :=
  ["doc", "refactor", "annotate", "migrate"]

/-- The command kinds for which `process_command` engages the safety
check in secure mode (its own, different list). -/
def safety_commands : List String :=
  ["refactor", "annotate", "migrate"]

/-- The in-place refusal text of `_handle_output`. -/
def unsupported_in_place_message : String :=
  "In-place output not supported for this command. Use console or new-file."

/-- `FlowOrchestrator._handle_output`: console returns the text
unchanged; in-place overwrites the source only for mutating command
kinds; new-file writes to the derived filename; any other combination
(including a missing path) falls through to returning the text. -/
def handle_output (result : String) (path : Option String)
    (output_mode command : String) : String × List TraceEvent :=
  if output_mode == "console" then (result, [])
  else if output_mode == "in-place" && optStrTruthy path then
    if mutating_commands.contains command then
      ("Changes applied to " ++ path.getD "",
       [TraceEvent.fileWrite (path.getD "") result])
    else (unsupported_in_place_message, [])
  else if output_mode == "new-file" && optStrTruthy path then
    ("Output saved to " ++ get_output_filename (path.getD "") command,
     [TraceEvent.fileWrite (get_output_filename (path.getD "") command) result])
  else (result, [])

/-- Turn an agent outcome into a router outcome: an error raised inside
an agent is the remote client's `RuntimeError`. -/
def lift_agent :
    Except String String × List String →
    Except (String × String) String × List String
  | (Except.ok r, calls) => (Except.ok r, calls)
  | (Except.error e, calls) => (Except.error ("RuntimeError", e), calls)

/-- `FlowOrchestrator._route_command`: dictionary dispatch over the seven
agents; an unknown key raises `ValueError`; the migration agent receives
the target keyword argument only when a truthy target was supplied. -/
def route_command (gemini : String → Except String String) (command : String)
    (content path target : Option String) :
    Except (String × String) String × List String :=
  if command == "doc" then lift_agent (doc_agent_process gemini content path)
  else if command == "summarize" then
    lift_agent (summary_agent_process gemini content path)
  else if command == "test" then
    lift_agent (test_agent_process gemini content path)
  else if command == "inspect" then
    lift_agent (bug_agent_process gemini content path)
  else if command == "refactor" then
    lift_agent (refactor_agent_process gemini content path)
  else if command == "annotate" then
    lift_agent (type_annotation_agent_process gemini content path)
  else if command == "migrate" then
    lift_agent (migration_agent_process gemini content path
      (if optStrTruthy target then target.getD "" else ""))
  else (Except.error ("ValueError", "Unknown command: " ++ command), [])

/-- File writes performed from inside the gate (the `s`/`save` preview
branch of `SafetyCheckNode`, which writes `{file_path}.preview`). -/
def gate_writes (changes : String) : List GateEvent → List TraceEvent
  | [] => []
  | GateEvent.previewSaved p :: rest =>
    TraceEvent.fileWrite p changes :: gate_writes changes rest
  | _ :: rest => gate_writes changes rest

/-- The ambient world of one request: the remote client's behaviour per
prompt, the filesystem's answer to `read_file_content`, and the stdin
responses available to the approval gate. -/
structure Env where
  gemini : String → Except String String
  readFile : String → Except String String
  gateResponses : List String

/-- `FlowOrchestrator.process_command`.  Returns `none` when the
approval gate exhausts the available responses (the real loop would
still be blocking); otherwise the user-facing result string (errors are
caught and converted by the error handler, mirroring the `try/except`)
together with the trace of observable effects, in order.  The context
analysis step only feeds verbose printing and has no observable effect.
-/
def process_command (env : Env) (command : String) (path : Option String)
    (output_mode : String) (secure : Bool) (target : Option String) :
    Option (String × List TraceEvent) :=
  match (if optStrTruthy path then
           (env.readFile (path.getD "")).map some
         else Except.ok none) with
  | Except.error e =>
    some (handle_error "RuntimeError" e (some command) path, [])
  | Except.ok content =>
    match route_command env.gemini command content path target with
    | (Except.error etype_emsg, calls) =>
      some (handle_error etype_emsg.1 etype_emsg.2 (some command) path,
            calls.map TraceEvent.remoteCall)
    | (Except.ok result, calls) =>
      if secure && safety_commands.contains command then
        match approve_changes result none env.gateResponses with
        | (none, _) => none
        | (some true, gevts) =>
          some ((handle_output result path output_mode command).1,
                calls.map TraceEvent.remoteCall ++
                  TraceEvent.gateEntered ::
                    (gate_writes result gevts ++
                      TraceEvent.gateOutcome true ::
                        (handle_output result path output_mode command).2))
        | (some false, gevts) =>
          some ("Operation cancelled by user.",
                calls.map TraceEvent.remoteCall ++
                  TraceEvent.gateEntered ::
                    (gate_writes result gevts ++ [TraceEvent.gateOutcome false]))
      else
        some ((handle_output result path output_mode command).1,
              calls.map TraceEvent.remoteCall ++
                (handle_output result path output_mode command).2)

/-- `FlowOrchestrator.process_chat_input`: parse the intent (one remote
call); a truthy command is processed as a CLI command with the intent's
options, otherwise the input falls back to the general-query path; any
raised error is caught and converted by the error handler. -/
def process_chat_input (env : Env) (user_input : String) :
    Option (String × List TraceEvent) :=
  match parse_intent env.gemini user_input with
  | Except.error e =>
    some (handle_error "RuntimeError" e (some "chat") none,
          [TraceEvent.remoteCall (parse_intent_prompt user_input)])
  | Except.ok intent =>
    if optStrTruthy intent.command then
      (process_command env (intent.command.getD "") intent.path
          (intent.output_mode.getD "console") (intent.secure.getD false)
          intent.target).map
        fun rt =>
          (rt.1, TraceEvent.remoteCall (parse_intent_prompt user_input) :: rt.2)
    else
      match handle_general_query env.gemini user_input with
      | (Except.ok r, gq_calls) =>
        some (r, TraceEvent.remoteCall (parse_intent_prompt user_input) ::
                  gq_calls.map TraceEvent.remoteCall)
      | (Except.error e, gq_calls) =>
        some (handle_error "RuntimeError" e (some "chat") none,
              TraceEvent.remoteCall (parse_intent_prompt user_input) ::
                gq_calls.map TraceEvent.remoteCall)

/-! ## Helper lemmas -/

/-- If a filter keeps exactly one element, `find?` returns it. -/
lemma find?_of_filter_singleton {α : Type} (l : List α) (p : α → Bool) (x : α)
    (h : l.filter p = [x]) : l.find? p = some x := by
  induction l with
  | nil => simp at h
  | cons a l ih =>
    by_cases hp : p a = true
    · rw [List.filter_cons_of_pos hp] at h
      rw [List.find?_cons_of_pos _ hp]
      exact congrArg some (List.cons.inj h).1
    · rw [List.filter_cons_of_neg hp] at h
      rw [List.find?_cons_of_neg _ hp]
      exact ih h

/-- A file write is never among mapped remote-call events. -/
lemma fileWrite_not_mem_remote_calls (p c : String) (l : List String) :
    TraceEvent.fileWrite p c ∉ l.map TraceEvent.remoteCall := by
  simp [List.mem_map]

/-- The gate never saves a preview when it was given no file path, so it
performs no writes. -/
lemma gate_writes_approve_none (ch ch2 : String) (resps : List String) :
    gate_writes ch2 ((approve_changes ch none resps).2) = [] := by
  induction resps with
  | nil => rfl
  | cons resp rest ih =>
    simp only [approve_changes, optStrTruthy, Bool.and_false]
    split_ifs <;> simp [gate_writes, ih]

/-- No match for the path regex starts inside a dot-free, space-free
character block that is followed by a space. -/
lemma greedy_match_none_before_space :
    ∀ (pre : List Char) (acc l : List Char),
      (∀ ch ∈ pre, isSpaceChar ch = false ∧ (ch == '.') = false) →
      greedy_match acc (pre ++ ' ' :: l) = none := by
  intro pre
  induction pre with
  | nil =>
    intro acc l _
    show greedy_match acc (' ' :: l) = none
    simp [greedy_match, isSpaceChar]
  | cons c pre' ih =>
    intro acc l h
    obtain ⟨hsp, hdot⟩ := h c (List.mem_cons_self c pre')
    have hrest := fun ch hch => h ch (List.mem_cons_of_mem c hch)
    show greedy_match acc (c :: (pre' ++ ' ' :: l)) = none
    simp [greedy_match, hsp, hdot, ih (c :: acc) l hrest]

/-- The path regex cannot match in a dot-free, space-free tail. -/
lemma greedy_match_none_clean :
    ∀ (l acc : List Char),
      (∀ ch ∈ l, isSpaceChar ch = false ∧ (ch == '.') = false) →
      greedy_match acc l = none := by
  intro l
  induction l with
  | nil => intro acc _; rfl
  | cons c rest ih =>
    intro acc h
    obtain ⟨hsp, hdot⟩ := h c (List.mem_cons_self c rest)
    have hrest := fun ch hch => h ch (List.mem_cons_of_mem c hch)
    simp [greedy_match, hsp, hdot, ih (c :: acc) hrest]

/-- On a token `stem.ext` at the end of the input, with a clean stem and
an extension on which the ordered alternation matches exactly, the
greedy matcher returns the whole token. -/
lemma greedy_match_token :
    ∀ (stem acc ext : List Char),
      (acc = [] → stem ≠ []) →
      (∀ ch ∈ stem, isSpaceChar ch = false ∧ (ch == '.') = false) →
      (∀ ch ∈ ext, isSpaceChar ch = false ∧ (ch == '.') = false) →
      try_alts ext_alts ext = some ext.length →
      greedy_match acc (stem ++ '.' :: ext) =
        some (acc.reverse ++ stem ++ '.' :: ext) := by
  intro stem
  induction stem with
  | nil =>
    intro acc ext hne hstem hext halt
    have hacc : acc.isEmpty = false := by
      cases acc with
      | nil => exact absurd rfl (hne rfl)
      | cons a as => rfl
    show greedy_match acc ('.' :: ext) = some (acc.reverse ++ [] ++ '.' :: ext)
    simp [greedy_match, isSpaceChar, greedy_match_none_clean ext ('.' :: acc) hext,
      hacc, halt, List.take_length]
  | cons c stem' ih =>
    intro acc ext hne hstem hext halt
    obtain ⟨hsp, hdot⟩ := hstem c (List.mem_cons_self c stem')
    have hrest := fun ch hch => hstem ch (List.mem_cons_of_mem c hch)
    have hrec := ih (c :: acc) ext (fun h => absurd h (by simp)) hrest hext halt
    show greedy_match acc (c :: (stem' ++ '.' :: ext)) = _
    simp [greedy_match, hsp, hrec]

/-- `re.search` skips a clean block followed by a space. -/
lemma regex_search_path_skip :
    ∀ (pre l : List Char),
      (∀ ch ∈ pre, isSpaceChar ch = false ∧ (ch == '.') = false) →
      regex_search_path (pre ++ ' ' :: l) = regex_search_path l := by
  intro pre
  induction pre with
  | nil =>
    intro l _
    show regex_search_path (' ' :: l) = regex_search_path l
    simp [regex_search_path, greedy_match, isSpaceChar]
  | cons c pre' ih =>
    intro l h
    have hrest := fun ch hch => h ch (List.mem_cons_of_mem c hch)
    show regex_search_path (c :: (pre' ++ ' ' :: l)) = regex_search_path l
    simp only [regex_search_path]
    rw [show c :: (pre' ++ ' ' :: l) = (c :: pre') ++ ' ' :: l from rfl,
      greedy_match_none_before_space (c :: pre') [] l h]
    exact ih l hrest

/-- Every command keyword is free of whitespace and dots. -/
lemma command_keywords_clean :
    ∀ kw ∈ command_keywords, ∀ ch ∈ kw.data,
      isSpaceChar ch = false ∧ (ch == '.') = false := by decide

/-! ## Claim C9 -/

/-- C9: for every result string, source path and command, the Output
Handler invoked with mode `console` returns the result string unchanged
and performs no file I/O (empty write trace). -/
theorem console_mode_returns_text_unchanged (result : String)
    (path : Option String) (command : String) :
    handle_output result path "console" command = (result, []) := rfl

/-! ## Claim C4 -/

/-- C4: for every command kind outside the Output Handler's mutating
list (the read-only kinds, e.g. `summarize`, `test`, `inspect`), every
result text and every (truthy) source path, in-place mode returns the
explicit unsupported message and performs no write. -/
theorem in_place_read_only_unsupported (result p command : String)
    (h1 : mutating_commands.contains command = false)
    (h2 : (p == "") = false) :
    handle_output result (some p) "in-place" command =
      (unsupported_in_place_message, []) := by
  have hc1 : (("in-place" : String) == "console") = false := rfl
  have hc2 : (("in-place" : String) == "in-place") = true := rfl
  simp [handle_output, optStrTruthy, hc1, hc2, h1, h2]
  simpa using h1

/-- Witness for C4 at `summarize`, result `"R"`, path `a.py`. -/
theorem in_place_read_only_unsupported_witness :
    mutating_commands.contains "summarize" = false ∧
    (("a.py" : String) == "") = false ∧
    handle_output "R" (some "a.py") "in-place" "summarize" =
      (unsupported_in_place_message, []) :=
  ⟨by decide, by decide,
   in_place_read_only_unsupported "R" "a.py" "summarize" (by decide) (by decide)⟩

/-! ## Claim C5 -/

/-- C5: for any pending change content and any file-path argument,
feeding the gate the responses `["x", "v", "n"]` produces exactly one
invalid-input re-prompt, then exactly one full-content print, and
terminates rejected; the gate performs no preview save (the only write
it can do). -/
theorem approval_gate_x_v_n (changes : String) (file_path : Option String) :
    approve_changes changes file_path ["x", "v", "n"] =
      (some false, [GateEvent.invalidReprompt, GateEvent.showFull]) := rfl

/-! ## Claim C6 -/

/-- C6: whenever the detected file type has no associated static type
system (no entry in `type_systems`) and content is present, the
`annotate` agent returns the textual refusal notice and sends no prompt
to the remote completion client. -/
theorem annotate_refuses_without_type_system
    (gemini : String → Except String String) (content path : Option String)
    (hc : optStrTruthy content = true)
    (hts : type_systems.lookup (agent_file_type path) = none) :
    type_annotation_agent_process gemini content path =
      (Except.ok ("Type annotations are not typically applicable to " ++
         agent_file_type path ++
         " files. This command works best with programming languages that support static typing."),
       []) := by
  simp [type_annotation_agent_process, hc, hts]

/-- Witness for C6: markdown file, non-empty content. -/
theorem annotate_refuses_without_type_system_witness :
    optStrTruthy (some "x = 1") = true ∧
    type_systems.lookup (agent_file_type (some "notes.md")) = none ∧
    type_annotation_agent_process (fun _ => Except.ok "Z") (some "x = 1")
        (some "notes.md") =
      (Except.ok ("Type annotations are not typically applicable to " ++
         agent_file_type (some "notes.md") ++
         " files. This command works best with programming languages that support static typing."),
       []) :=
  ⟨by decide, by decide,
   annotate_refuses_without_type_system (fun _ => Except.ok "Z")
     (some "x = 1") (some "notes.md") (by decide) (by decide)⟩

/-! ## Claim C3 -/

/-- C3 counterexample: processing `migrate` with content but no target
does not signal an error; the router returns the normal response text
`"No migration target specified."` as a successful outcome, which flows
downstream like any result. -/
theorem migrate_missing_target_counterexample :
    route_command (fun _ => Except.ok "Y") "migrate" (some "print(1)")
        (some "old.py") none =
      (Except.ok "No migration target specified.", []) ∧
    except_is_error (route_command (fun _ => Except.ok "Y") "migrate"
        (some "print(1)") (some "old.py") none).1 = false :=
  ⟨rfl, rfl⟩

/-- C3 amended: for any remote client, any truthy content and any
non-truthy target, routing `migrate` yields the normal (non-error)
response text `"No migration target specified."` with no remote call;
only the CLI argument parser rejects a missing `--target` up front. -/
theorem migrate_missing_target_normal_text
    (gemini : String → Except String String) (content path target : Option String)
    (hc : optStrTruthy content = true)
    (ht : optStrTruthy target = false) :
    route_command gemini "migrate" content path target =
      (Except.ok "No migration target specified.", []) := by
  have h1 : (("migrate" : String) == "doc") = false := rfl
  have h2 : (("migrate" : String) == "summarize") = false := rfl
  have h3 : (("migrate" : String) == "test") = false := rfl
  have h4 : (("migrate" : String) == "inspect") = false := rfl
  have h5 : (("migrate" : String) == "refactor") = false := rfl
  have h6 : (("migrate" : String) == "annotate") = false := rfl
  have h7 : (("migrate" : String) == "migrate") = true := rfl
  simp [route_command, migration_agent_process, lift_agent, h1, h2, h3, h4,
    h5, h6, h7, hc, ht]

/-- Witness for C3's amended theorem. -/
theorem migrate_missing_target_normal_text_witness :
    optStrTruthy (some "print(1)") = true ∧
    optStrTruthy (none : Option String) = false ∧
    route_command (fun _ => Except.ok "Y") "migrate" (some "print(1)")
        (some "old.py") none =
      (Except.ok "No migration target specified.", []) :=
  ⟨by decide, by decide,
   migrate_missing_target_normal_text (fun _ => Except.ok "Y")
     (some "print(1)") (some "old.py") none (by decide) (by decide)⟩

/-! ## Claim C7 -/

/-- A successful remote response whose first candidate has content with
an empty parts list. -/
def empty_parts_response : GenResponse :=
  { candidates := [{ content := some { parts := [] } }] }

/-- A successful remote response with no candidates at all. -/
def no_candidates_response : GenResponse :=
  { candidates := [] }

/-- C7 counterexample: the wrapper raises on an input where the
underlying remote call succeeded (first candidate has content but an
empty parts list: the `parts[0]` subscript raises and the `except`
clause re-raises it as a `RuntimeError`), so "raises exactly when the
remote call raises" is false. -/
theorem call_gemini_raises_on_successful_response :
    except_is_error (Except.ok empty_parts_response : Except String GenResponse)
      = false ∧
    call_gemini (Except.ok empty_parts_response) =
      Except.error "Gemini API call failed: list index out of range" :=
  ⟨rfl, rfl⟩

/-- C7 amended: the wrapper raises exactly when the remote call raised
or when a successful response's first candidate carries content with an
empty parts list; and a successful response with no candidates or with
no content in its first candidate yields the sentinel string rather
than raising. -/
theorem call_gemini_error_characterization (call : Except String GenResponse) :
    (except_is_error (call_gemini call) = true ↔
      ((∃ e, call = Except.error e) ∨
       (∃ r cand rest content, call = Except.ok r ∧
          r.candidates = cand :: rest ∧ cand.content = some content ∧
          content.parts = []))) ∧
    (∀ r, call = Except.ok r →
      (r.candidates = [] ∨
       (∃ cand rest, r.candidates = cand :: rest ∧ cand.content = none)) →
      call_gemini call = Except.ok "No response generated from Gemini API") := by
  constructor
  · constructor
    · intro h
      match call with
      | Except.error e => exact Or.inl ⟨e, rfl⟩
      | Except.ok r =>
        match hr : r.candidates with
        | [] => simp [call_gemini, hr, except_is_error] at h
        | cand :: rest =>
          match hc : cand.content with
          | none => simp [call_gemini, hr, hc, except_is_error] at h
          | some content =>
            match hp : content.parts with
            | [] => exact Or.inr ⟨r, cand, rest, content, rfl, hr, hc, hp⟩
            | part :: parts => simp [call_gemini, hr, hc, hp, except_is_error] at h
    · intro h
      rcases h with ⟨e, he⟩ | ⟨r, cand, rest, content, hcall, hr, hc, hp⟩
      · subst he; rfl
      · subst hcall; simp [call_gemini, hr, hc, hp, except_is_error]
  · intro r hcall h
    subst hcall
    rcases h with h | ⟨cand, rest, hr, hc⟩
    · simp [call_gemini, h]
    · simp [call_gemini, hr, hc]

/-- Witness for C7's amended theorem: a raised call raises, and an
empty successful response yields the sentinel. -/
theorem call_gemini_error_characterization_witness :
    except_is_error (call_gemini (Except.error "boom")) = true ∧
    call_gemini (Except.ok no_candidates_response) =
      Except.ok "No response generated from Gemini API" :=
  ⟨(call_gemini_error_characterization (Except.error "boom")).1.mpr
     (Or.inl ⟨"boom", rfl⟩),
   (call_gemini_error_characterization (Except.ok no_candidates_response)).2
     no_candidates_response rfl (Or.inl rfl)⟩

/-! ## Claim C10 -/

/-- C10: the intent returned by the Intent Resolver is a function of the
user input text alone; the remote response fetched during intent parsing
never influences any field, so two runs on the same input against remote
clients returning any two (possibly different) responses yield identical
intents. -/
theorem parse_intent_ignores_remote_response (input r1 r2 : String)
    (g1 g2 : String → Except String String)
    (h1 : g1 (parse_intent_prompt input) = Except.ok r1)
    (h2 : g2 (parse_intent_prompt input) = Except.ok r2) :
    parse_intent g1 input = parse_intent g2 input := by
  unfold parse_intent
  rw [h1, h2]
  rfl

/-- Witness for C10 with two clients returning different responses. -/
theorem parse_intent_ignores_remote_response_witness :
    (fun _ : String => Except.ok (ε := String) "A") (parse_intent_prompt "doc a.py") = Except.ok "A" ∧
    (fun _ : String => Except.ok (ε := String) "B") (parse_intent_prompt "doc a.py") = Except.ok "B" ∧
    ("A" : String) ≠ "B" ∧
    parse_intent (fun _ => Except.ok "A") "doc a.py" =
      parse_intent (fun _ => Except.ok "B") "doc a.py" :=
  ⟨rfl, rfl, by decide,
   parse_intent_ignores_remote_response "doc a.py" "A" "B" _ _ rfl rfl⟩

/-! ## Claim C2 -/

/-- C2 counterexample: `"doc config.json"` has exactly one recognized
command keyword (`doc`) and exactly one token ending in a known
extension (`config.json`), yet the resolver's path is `"config.js"`:
the ordered alternation accepts `js` as a prefix of `json` and the
unanchored regex stops there. -/
theorem intent_resolver_path_counterexample :
    recognized_keywords_in "doc config.json" = ["doc"] ∧
    ext_tokens_of "doc config.json" = ["config.json"] ∧
    (parse_intent_body "doc config.json" "").command = some "doc" ∧
    (parse_intent_body "doc config.json" "").path = some "config.js" ∧
    (parse_intent_body "doc config.json" "").path ≠ some "config.json" := by
  decide

/-- C2 amended: for inputs of the shape `<keyword> <stem>.<ext>` — one
recognized keyword, then one token ending in a known extension — the
resolver returns that keyword as the command and that exact token as the
path, provided the stem is non-empty and free of whitespace and dots,
and the ordered extension alternation matches the token's extension
exactly (rather than a proper prefix of it, as it does for e.g.
`.json`/`.cs`/`.css`). -/
theorem intent_resolver_keyword_and_path (kw stem ext response : String)
    (hkw : kw ∈ command_keywords)
    (hstem_ne : stem.data ≠ [])
    (hstem : ∀ ch ∈ stem.data, isSpaceChar ch = false ∧ (ch == '.') = false)
    (hext_mem : ext ∈ known_extensions)
    (hext : ∀ ch ∈ ext.data, isSpaceChar ch = false ∧ (ch == '.') = false)
    (halt : try_alts ext_alts ext.data = some ext.data.length)
    (huniq : recognized_keywords_in (kw ++ " " ++ stem ++ "." ++ ext) = [kw]) :
    (parse_intent_body (kw ++ " " ++ stem ++ "." ++ ext) response).command = some kw ∧
    (parse_intent_body (kw ++ " " ++ stem ++ "." ++ ext) response).path =
      some (stem ++ "." ++ ext) := by
  have hdata : (kw ++ " " ++ stem ++ "." ++ ext).data =
      kw.data ++ ' ' :: (stem.data ++ '.' :: ext.data) := by
    simp only [String.data_append, List.append_assoc]
    rfl
  constructor
  · have hfilter :
        List.filter (fun c =>
          strContainsSub (lowerStr (kw ++ " " ++ stem ++ "." ++ ext)) c)
          command_keywords = [kw] := huniq
    exact find?_of_filter_singleton _ _ _ hfilter
  · obtain ⟨s0, srest, hs⟩ : ∃ a l, stem.data = a :: l := by
      match h : stem.data with
      | [] => exact absurd h hstem_ne
      | a :: l => exact ⟨a, l, rfl⟩
    have hstem' : ∀ ch ∈ s0 :: srest, isSpaceChar ch = false ∧ (ch == '.') = false := by
      rw [← hs]; exact hstem
    have hgm : greedy_match [] (s0 :: (srest ++ '.' :: ext.data)) =
        some ((s0 :: srest) ++ '.' :: ext.data) := by
      have h := greedy_match_token (s0 :: srest) [] ext.data
        (fun _ => by simp) hstem' hext halt
      simpa [List.cons_append] using h
    have hsearch : regex_search_path (kw ++ " " ++ stem ++ "." ++ ext).data =
        some (stem.data ++ '.' :: ext.data) := by
      rw [hdata, regex_search_path_skip kw.data _ (command_keywords_clean kw hkw),
        hs, List.cons_append]
      simp only [regex_search_path]
      rw [hgm]
      simp [List.cons_append]
    have hfin : (parse_intent_body (kw ++ " " ++ stem ++ "." ++ ext) response).path =
        some (⟨stem.data ++ '.' :: ext.data⟩ : String) := by
      simp only [parse_intent_body]
      rw [hsearch]
      rfl
    have hmk : (stem ++ "." ++ ext).data = stem.data ++ '.' :: ext.data := by
      simp only [String.data_append, List.append_assoc]
      rfl
    rw [hfin, ← hmk]

/-- Witness for C2's amended theorem at `doc main.py`. -/
theorem intent_resolver_keyword_and_path_witness :
    "doc" ∈ command_keywords ∧
    ("main" : String).data ≠ [] ∧
    "py" ∈ known_extensions ∧
    try_alts ext_alts ("py" : String).data = some ("py" : String).data.length ∧
    recognized_keywords_in ("doc" ++ " " ++ "main" ++ "." ++ "py") = ["doc"] ∧
    (parse_intent_body ("doc" ++ " " ++ "main" ++ "." ++ "py") "").command = some "doc" ∧
    (parse_intent_body ("doc" ++ " " ++ "main" ++ "." ++ "py") "").path =
      some ("main" ++ "." ++ "py") := by
  refine ⟨by decide, by decide, by decide, by decide, by decide, ?_, ?_⟩
  · exact (intent_resolver_keyword_and_path "doc" "main" "py" "" (by decide)
      (by decide) (by decide) (by decide) (by decide) (by decide) (by decide)).1
  · exact (intent_resolver_keyword_and_path "doc" "main" "py" "" (by decide)
      (by decide) (by decide) (by decide) (by decide) (by decide) (by decide)).2

/-! ## Claim C1 -/

/-- A fixed world for the C1 counterexample: the remote client answers
`"X"`, the file reads as `"code"`, and no gate responses are available
(the gate, if entered, would block). -/
def env_doc_fixed : Env :=
  { gemini := fun _ => Except.ok "X",
    readFile := fun _ => Except.ok "code",
    gateResponses := [] }

/-- The trace of `doc` on `a.py` in secure mode with in-place output. -/
def c1_doc_trace : List TraceEvent :=
  ((process_command env_doc_fixed "doc" (some "a.py") "in-place" true
      none).map Prod.snd).getD []

/-- C1 counterexample: `doc` is a command the Output Handler writes
in-place, yet processing it with secure mode and in-place output
overwrites the source file without ever entering the Approval Gate
(`doc` is missing from the safety-check list). -/
theorem secure_doc_in_place_bypasses_gate :
    mutating_commands.contains "doc" = true ∧
    safety_commands.contains "doc" = false ∧
    TraceEvent.fileWrite "a.py" "X" ∈ c1_doc_trace ∧
    TraceEvent.gateEntered ∉ c1_doc_trace := by decide

/-- C1 amended: for the commands on the safety-check list (`refactor`,
`annotate`, `migrate` — not `doc`), processing in secure mode never
writes any file before the Approval Gate has been entered and has
reached the approved terminal state: every file write in the trace
comes after the gate's approved outcome. -/
theorem secure_safety_command_writes_only_after_approval
    (env : Env) (command : String) (path : Option String)
    (output_mode : String) (target : Option String) (r : String)
    (t : List TraceEvent)
    (hcmd : safety_commands.contains command = true)
    (hrun : process_command env command path output_mode true target =
      some (r, t))
    (p c : String) (hw : TraceEvent.fileWrite p c ∈ t) :
    ∃ pre post, t = pre ++ TraceEvent.gateOutcome true :: post ∧
      TraceEvent.gateEntered ∈ pre ∧ TraceEvent.fileWrite p c ∈ post := by
  unfold process_command at hrun
  split at hrun
  · next e heq =>
    simp only [Option.some.injEq, Prod.mk.injEq] at hrun
    obtain ⟨-, ht⟩ := hrun
    subst ht
    simp at hw
  · next content heq =>
    split at hrun
    · next err calls heq2 =>
      simp only [Option.some.injEq, Prod.mk.injEq] at hrun
      obtain ⟨-, ht⟩ := hrun
      subst ht
      exact absurd hw (fileWrite_not_mem_remote_calls p c calls)
    · next result calls heq2 =>
      simp only [hcmd, Bool.and_true, Bool.true_and] at hrun
      rw [if_pos trivial] at hrun
      split at hrun
      · next heq3 => exact Option.noConfusion hrun
      · next gevts heq3 =>
        simp only [Option.some.injEq, Prod.mk.injEq] at hrun
        obtain ⟨-, ht⟩ := hrun
        have h2 : (approve_changes result none env.gateResponses).2 = gevts := by
          rw [heq3]
        have hg : gate_writes result gevts = [] := by
          rw [← h2]
          exact gate_writes_approve_none result result env.gateResponses
        subst ht
        rw [hg] at hw ⊢
        refine ⟨List.map TraceEvent.remoteCall calls ++ [TraceEvent.gateEntered],
          (handle_output result path output_mode command).2, by simp, by simp, ?_⟩
        simp only [List.nil_append, List.mem_append, List.mem_cons,
          List.mem_map] at hw
        rcases hw with ⟨a, -, ha⟩ | h | h | h
        · exact absurd ha (by simp)
        · exact absurd h (by simp)
        · exact absurd h (by simp)
        · exact h
      · next gevts heq3 =>
        simp only [Option.some.injEq, Prod.mk.injEq] at hrun
        obtain ⟨-, ht⟩ := hrun
        have h2 : (approve_changes result none env.gateResponses).2 = gevts := by
          rw [heq3]
        have hg : gate_writes result gevts = [] := by
          rw [← h2]
          exact gate_writes_approve_none result result env.gateResponses
        subst ht
        rw [hg] at hw
        simp only [List.nil_append, List.mem_append, List.mem_cons,
          List.mem_map] at hw
        rcases hw with ⟨a, -, ha⟩ | h | h | h
        · exact absurd ha (by simp)
        · exact absurd h (by simp)
        · exact absurd h (by simp)
        · exact absurd h (by simp)

/-- A fixed world for the C1 witness: the gate approves on the first
response. -/
def env_migrate_demo : Env :=
  { gemini := fun _ => Except.ok "X",
    readFile := fun _ => Except.ok "code",
    gateResponses := ["y"] }

/-- Witness for C1's amended theorem: a secure in-place `migrate` run
whose only write comes after the approved gate outcome. -/
theorem secure_safety_command_writes_only_after_approval_witness :
    safety_commands.contains "migrate" = true ∧
    TraceEvent.fileWrite "a.py" "No migration target specified." ∈
      [TraceEvent.gateEntered, TraceEvent.gateOutcome true,
       TraceEvent.fileWrite "a.py" "No migration target specified."] ∧
    ∃ pre post,
      [TraceEvent.gateEntered, TraceEvent.gateOutcome true,
       TraceEvent.fileWrite "a.py" "No migration target specified."] =
        pre ++ TraceEvent.gateOutcome true :: post ∧
      TraceEvent.gateEntered ∈ pre ∧
      TraceEvent.fileWrite "a.py" "No migration target specified." ∈ post :=
  ⟨by decide, by decide,
   secure_safety_command_writes_only_after_approval env_migrate_demo "migrate"
     (some "a.py") "in-place" none "Changes applied to a.py"
     [TraceEvent.gateEntered, TraceEvent.gateOutcome true,
      TraceEvent.fileWrite "a.py" "No migration target specified."]
     (by decide) rfl "a.py" "No migration target specified." (by decide)⟩

/-! ## Claim C8 -/

/-- C8: for free-text inputs containing zero recognized command
keywords (and an intent-parsing remote call that answers), the resolver
leaves `command` unset and chat processing falls back to the
general-query path — the general-query prompt is sent — rather than
raising. -/
theorem chat_without_keyword_goes_to_general_query
    (env : Env) (input resp : String)
    (hkw : recognized_keywords_in input = [])
    (hok : env.gemini (parse_intent_prompt input) = Except.ok resp) :
    (parse_intent_body input resp).command = none ∧
    ∃ r t, process_chat_input env input = some (r, t) ∧
      TraceEvent.remoteCall (handle_general_query_prompt input) ∈ t := by
  have hfilter :
      List.filter (fun c => strContainsSub (lowerStr input) c)
        command_keywords = [] := hkw
  have hfind :
      command_keywords.find? (fun c => strContainsSub (lowerStr input) c) =
        none :=
    List.find?_eq_none.mpr (List.filter_eq_nil_iff.mp hfilter)
  have hcmd : (parse_intent_body input resp).command = none := hfind
  refine ⟨hcmd, ?_⟩
  have hparse : parse_intent env.gemini input =
      Except.ok (parse_intent_body input resp) := by
    unfold parse_intent
    rw [hok]
    rfl
  unfold process_chat_input
  rw [hparse]
  simp only [hcmd, optStrTruthy]
  rw [if_neg (by simp)]
  cases hg : env.gemini (handle_general_query_prompt input) with
  | ok r0 =>
    exact ⟨r0,
      [TraceEvent.remoteCall (parse_intent_prompt input),
       TraceEvent.remoteCall (handle_general_query_prompt input)],
      by simp [handle_general_query, hg], by simp⟩
  | error e =>
    exact ⟨handle_error "RuntimeError" e (some "chat") none,
      [TraceEvent.remoteCall (parse_intent_prompt input),
       TraceEvent.remoteCall (handle_general_query_prompt input)],
      by simp [handle_general_query, hg], by simp⟩

/-- Witness for C8 at `"hello there"`. -/
theorem chat_without_keyword_goes_to_general_query_witness :
    recognized_keywords_in "hello there" = [] ∧
    (parse_intent_body "hello there" "ans").command = none ∧
    ∃ r t,
      process_chat_input
          { gemini := fun _ => Except.ok "ans",
            readFile := fun _ => Except.ok "",
            gateResponses := [] } "hello there" = some (r, t) ∧
      TraceEvent.remoteCall (handle_general_query_prompt "hello there") ∈ t := by
  refine ⟨by decide, ?_⟩
  have h := chat_without_keyword_goes_to_general_query
    { gemini := fun _ => Except.ok "ans",
      readFile := fun _ => Except.ok "",
      gateResponses := [] } "hello there" "ans" (by decide) rfl
  exact ⟨h.1, h.2⟩
